/-
Verification of the JUnit-XML reporting module (bzt/modules/reporting.py).

The file shallowly embeds the module's data model and operations:
  * a model of Python's `urllib.parse.urlparse` restricted to what
    `JUnitXMLReporter.__convert_label_name` feeds it (scheme / netloc /
    path / params / query / fragment extraction);
  * `JUnitXMLReporter.__convert_label_name` (label normalization);
  * `FinalStatus.__report_samples_count` (failure-percentage line);
  * `JUnitXMLWriter` (the streaming element writer with its explicit
    open-element stack), modelled as a state record whose `out` field
    records every `fds.write` call in order;
  * `JUnitXMLReporter.write_summary_report`, `count_errors`,
    `write_errors`, `__process_pass_fail`, and the dispatch in
    `post_process`.
Theorems about the claims follow the definitions.
-/
import Mathlib

namespace Reporting

/-! ## Python string helpers (List Char level) -/

/-- Python `s.split(sep, 1)` when `sep` occurs: the part before the first
occurrence of `sep` and the part after it. `none` when `sep` is absent. -/
def splitFirst (sep : Char) : List Char → Option (List Char × List Char)
  | [] => none
  | c :: rest =>
      if c = sep then some ([], rest)
      else (splitFirst sep rest).map (fun p => (c :: p.1, p.2))

/-- Take characters until one of `stops` is hit; return the prefix and the
rest (the stop character included in the rest).  This is
`urllib.parse._splitnetloc`'s search for the first of `/?#`. -/
def spanUntil (stops : List Char) : List Char → List Char × List Char
  | [] => ([], [])
  | c :: rest =>
      if c ∈ stops then ([], c :: rest)
      else
        let p := spanUntil stops rest
        (c :: p.1, p.2)

/-- Split on the LAST occurrence of `sep`: `cs = before ++ [sep] ++ after`
with no `sep` in `after`.  Models `str.rfind`. -/
def splitLast (sep : Char) (cs : List Char) : Option (List Char × List Char) :=
  (splitFirst sep cs.reverse).map (fun p => (p.2.reverse, p.1.reverse))

/-- The characters CPython's `urlsplit` accepts in a scheme. -/
def scheme_chars : List Char :=
  "abcdefghijklmnopqrstuvwxyzABCDEFGHIJKLMNOPQRSTUVWXYZ0123456789+-.".data

/-- Model of `urllib.parse._splitparams`: called only when `';'` is in the
path-and-params string.  If the string has a `'/'`, the `';'` is searched
only from the last `'/'` on; otherwise from the start. -/
def splitparams (cs : List Char) : List Char × List Char :=
  if '/' ∈ cs then
    match splitLast '/' cs with
    | some (before, after) =>
        match splitFirst ';' ('/' :: after) with
        | some (a, b) => (before ++ a, b)
        | none => (cs, [])
    | none => (cs, [])
  else
    match splitFirst ';' cs with
    | some (a, b) => (a, b)
    | none => (cs, [])

/-- The result record of `urllib.parse.urlparse`. -/
structure UrlParseResult where
  scheme : String
  netloc : String
  path : String
  params : String
  query : String
  fragment : String
  deriving Repr, DecidableEq

/-- Model of `urllib.parse.urlparse(url)` (default `scheme=''`,
`allow_fragments=True`):
1. if the first `':'` is at a positive index and everything before it is
   made of scheme characters, that prefix (lowercased) is the scheme;
2. if the rest starts with `"//"`, the netloc runs to the next `/`, `?`
   or `#`;
3. the fragment is everything after the first `'#'`;
4. the query is everything after the first `'?'` of what is left;
5. `params` are split off the path at a `';'` per `_splitparams`. -/
def pyUrlparse (url : String) : UrlParseResult :=
  let cs := url.data
  let schemeRest : List Char × List Char :=
    match splitFirst ':' cs with
    | some (before, after) =>
        if before ≠ [] ∧ before.all (fun c => c ∈ scheme_chars)
        then (before.map Char.toLower, after)
        else ([], cs)
    | none => ([], cs)
  let netlocRest : List Char × List Char :=
    match schemeRest.2 with
    | '/' :: '/' :: tail => spanUntil ['/', '?', '#'] tail
    | other => ([], other)
  let fragSplit : List Char × List Char :=
    match splitFirst '#' netlocRest.2 with
    | some (a, b) => (a, b)
    | none => (netlocRest.2, [])
  let querySplit : List Char × List Char :=
    match splitFirst '?' fragSplit.1 with
    | some (a, b) => (a, b)
    | none => (fragSplit.1, [])
  let pathParams : List Char × List Char :=
    if ';' ∈ querySplit.1 then splitparams querySplit.1 else (querySplit.1, [])
  { scheme := String.mk schemeRest.1
    netloc := String.mk netlocRest.1
    path := String.mk pathParams.1
    params := String.mk pathParams.2
    query := String.mk querySplit.2
    fragment := String.mk fragSplit.2 }

/-- Python `str.replace(".", "_")` for a one-character pattern: replace every
`'.'` by `'_'`. -/
def underscoreDots (s : String) : String :=
  String.mk (s.data.map (fun c => if c = '.' then '_' else c))

/-- Model of `JUnitXMLReporter.__convert_label_name`: if the parsed label has a
scheme, class name is `scheme + "." + netloc-with-dots-underscored` and
resource name joins the dot-underscored path, params, query and fragment
with `"."`; otherwise both results are the label unchanged. -/
def convert_label_name (url : String) : String × String :=
  let parsed_url := pyUrlparse url
  if parsed_url.scheme ≠ "" then
    (parsed_url.scheme ++ "." ++ underscoreDots parsed_url.netloc,
     String.intercalate "." [underscoreDots parsed_url.path,
                             underscoreDots parsed_url.params,
                             underscoreDots parsed_url.query,
                             underscoreDots parsed_url.fragment])
  else
    (url, url)

/-! ## Data model (KPISet / ErrorEntry, from bzt.modules.aggregator) -/

/-- One entry of `KPISet.ERRORS`: response code `rc`, message `msg`,
occurrence count `cnt`, and the per-URL failure tallies `urls` (a
`Counter`, iterated in its given order). -/
structure ErrorEntry where
  rc : String
  msg : String
  cnt : Nat
  urls : List (String × Nat)
  deriving Repr, DecidableEq

/-- The fields of a `KPISet` record this module reads:
`KPISet.SUCCESSES`, `KPISet.SAMPLE_COUNT`, `KPISet.FAILURES` and
`KPISet.ERRORS` (the timing/percentile fields are only logged by
`FinalStatus` and play no part in the claims). -/
structure KPISet where
  succ : Nat
  sampleCount : Nat
  failures : Nat
  errors : List ErrorEntry
  deriving Repr, DecidableEq

/-- Exceptions the embedded code can raise. -/
inductive PyError where
  | attributeError (attr : String)
  | zeroDivisionError
  deriving Repr, DecidableEq

/-- Model of `FinalStatus.__report_samples_count`: computes
`100 * failures / float(sample_count)` with no guard; Python raises
`ZeroDivisionError` when the divisor is `0.0`, which the embedding makes
explicit as the error branch of the division. -/
def report_samples_count (summary_kpi_set : KPISet) : Except PyError Rat :=
  if summary_kpi_set.sampleCount = 0 then .error .zeroDivisionError
  else .ok (100 * (summary_kpi_set.failures : Rat) / (summary_kpi_set.sampleCount : Rat))

/-! ## JUnitXMLWriter -/

/-- The writer's state: `out` records every `fds.write` call in order
(the file contents are their concatenation), `endings` is the
open-element stack `self.endings` (Python list: push with `append`, pop
from the end). -/
structure WState where
  out : List String
  endings : List String
  deriving Repr, DecidableEq

/-- Model of `JUnitXMLWriter.__init__` plus `write_header`: the prolog is written
immediately, the stack starts empty. -/
def initWriter : WState :=
  { out := ["<?xml version='1.0' encoding='UTF-8'?>\n"], endings := [] }

/-- Model of `JUnitXMLWriter.raw_write`. -/
def raw_write (data : String) (st : WState) : WState :=
  { st with out := st.out ++ [data] }

/-- Model of `JUnitXMLWriter.add_element`: writes `<name`, one ` k='v'` piece per
attribute (kwargs in call order), `>\n`, the body text (followed by a
newline) when non-empty, and either the close tag immediately
(`close=True`) or pushes it on `endings` (`close=False`). -/
def add_element (element_name text : String) (close : Bool)
    (attrs : List (String × String)) (st : WState) : WState :=
  let out1 := st.out ++ ["<" ++ element_name]
      ++ attrs.map (fun kv => " " ++ kv.1 ++ "='" ++ kv.2 ++ "'")
      ++ [">\n"]
  let out2 := if text = "" then out1 else out1 ++ [text, "\n"]
  if close then
    { out := out2 ++ ["</" ++ element_name ++ ">\n"], endings := st.endings }
  else
    { out := out2, endings := st.endings ++ ["</" ++ element_name ++ ">\n"] }

/-- Model of `JUnitXMLWriter.add_testsuite`. -/
def add_testsuite (close : Bool) (attrs : List (String × String)) (st : WState) : WState :=
  add_element "testsuite" "" close attrs st

/-- Model of `JUnitXMLWriter.add_testcase`. -/
def add_testcase (close : Bool) (attrs : List (String × String)) (st : WState) : WState :=
  add_element "testcase" "" close attrs st

/-- Model of `JUnitXMLWriter.add_error`. -/
def add_error (close : Bool) (attrs : List (String × String)) (st : WState) : WState :=
  add_element "error" "" close attrs st

/-- Model of `JUnitXMLWriter.close_element`:
`if self.endings: self.fds.write(self.endings.pop())` — pops and writes
the last pushed close tag when the stack is non-empty, and silently does
nothing when it is empty. -/
def close_element (st : WState) : WState :=
  match st.endings.getLast? with
  | some e => { out := st.out ++ [e], endings := st.endings.dropLast }
  | none => st

/-! ## Summary report (write_summary_report / count_errors / write_errors) -/

/-- The `err_template` line of `write_errors`. -/
def err_template (e : ErrorEntry) : String :=
  "Error code: " ++ e.rc ++ ", Message: " ++ e.msg ++ ", count: " ++ toString e.cnt ++ "\n"

/-- The `url_err_template` line of `write_errors` (note: no colon after
"Error count", as in the source). -/
def url_err_template (url : String) (cnt : Nat) : String :=
  "URL: " ++ url ++ ", Error count " ++ toString cnt ++ "\n"

/-- The inner `for _url, _err_count in error["urls"].items()` loop of
`write_errors`: grows `urls_err_string` by the new URL line and then
raw-writes the WHOLE accumulated string; returns the final accumulator
so the outer loop can carry it to the next error entry. -/
def url_loop (acc : String) : List (String × Nat) → WState → WState × String
  | [], st => (st, acc)
  | (u, c) :: rest, st =>
      let acc1 := acc ++ url_err_template u c
      url_loop acc1 rest (raw_write acc1 st)

/-- The outer `for error in summary_kpi_set[KPISet.ERRORS]` loop of
`write_errors`, threading the `urls_err_string` accumulator. -/
def write_errors_go (acc : String) : List ErrorEntry → WState → WState
  | [], st => st
  | e :: rest, st =>
      let st1 := raw_write (err_template e) st
      let p := url_loop acc e.urls st1
      write_errors_go p.2 rest p.1

/-- Model of `JUnitXMLReporter.write_errors`: `urls_err_string = ""` is
initialized once, before the loop over all error entries. -/
def write_errors (st : WState) (summary_kpi_set : KPISet) : WState :=
  write_errors_go "" summary_kpi_set.errors st

/-- Model of `JUnitXMLReporter.count_errors`: sums the values of every entry's
`urls` mapping (the `cnt` fields are not read). -/
def count_errors (summary_kpi_set : KPISet) : Nat :=
  summary_kpi_set.errors.foldl
    (fun err_counter e => e.urls.foldl (fun acc p => acc + p.2) err_counter) 0

/-- Model of `JUnitXMLReporter.write_summary_report`: opens the `testsuite`,
the summary `testcase` and its `error` element (all left open), writes
the "Success: …, Sample count: …, Failures: …, Errors: …" line, writes
the error descriptions, then closes two elements. -/
def write_summary_report (st : WState) (summary_kpiset : KPISet) : WState :=
  let succ := toString summary_kpiset.succ
  let throughput := toString summary_kpiset.sampleCount
  let fail := toString summary_kpiset.failures
  let st1 := add_testsuite false
      [("failures", fail), ("name", "sample_labels"), ("skip", "0"), ("tests", throughput)] st
  let st2 := add_testcase false [("classname", "bzt"), ("name", "summary_report")] st1
  let st3 := add_error false [("message", "error statistics:"), ("type", "http error")] st2
  let errors_count := toString (count_errors summary_kpiset)
  let summary_report := "Success: " ++ succ ++ ", Sample count: " ++ throughput ++
      ", Failures: " ++ fail ++ ", Errors: " ++ errors_count ++ "\n"
  let st4 := raw_write summary_report st3
  let st5 := write_errors st4 summary_kpiset
  close_element (close_element st5)

/-! ## Pass/fail mode (__process_pass_fail) -/

/-- The configuration dict of a fail criterion, as read by
`__process_pass_fail`.  `label` and `timeframe` may be `None`; Python's
truthiness test `if fc_obj.config['label']:` is false for both `None`
and the empty string. -/
structure FailCriterionConfig where
  subject : String
  label : Option String
  condition : String
  threshold : String
  timeframe : Option String
  deriving Repr, DecidableEq

/-- Python truthiness of a possibly-`None` string. -/
def pyTruthy : Option String → Bool
  | none => false
  | some s => s ≠ ""

/-- A fail criterion: its config plus the evaluated flags. -/
structure FailCriterion where
  config : FailCriterionConfig
  is_triggered : Bool
  fail : Bool
  deriving Repr, DecidableEq

/-- A `PassFailStatus` reporter exposes its `criterias` sequence. -/
structure PassFailStatus where
  criterias : List FailCriterion
  deriving Repr, DecidableEq

/-- An `etree` element: tag, attributes (kwargs in call order), children. -/
inductive Etree where
  | el (tag : String) (attrs : List (String × String)) (children : List Etree)
  deriving Repr

/-- The tag of an element. -/
def Etree.tag : Etree → String
  | .el t _ _ => t

/-- The attribute list of an element. -/
def Etree.attrs : Etree → List (String × String)
  | .el _ a _ => a

/-- The children of an element. -/
def Etree.children : Etree → List Etree
  | .el _ _ c => c

/-- The flattening loop of `__process_pass_fail`: all criteria of all
pass/fail reporters, evaluator order then within-evaluator order
(`if pf_obj.criterias:` skips empty evaluators, which appends nothing
anyway). -/
def gather_criterias (pass_fail_objects : List PassFailStatus) : List FailCriterion :=
  pass_fail_objects.foldl
    (fun acc pf => if pf.criterias.isEmpty then acc else acc ++ pf.criterias) []

/-- The `classname` synthesized for one criterion: `"%s of %s%s%s"` with
subject/label/condition/threshold when the label is truthy, else
`"%s%s%s"`; with `" for %s"` appended when the timeframe is truthy. -/
def criterion_classname (fc : FailCriterion) : String :=
  let base :=
    match fc.config.label, pyTruthy fc.config.label with
    | some l, true =>
        fc.config.subject ++ " of " ++ l ++ fc.config.condition ++ fc.config.threshold
    | _, _ => fc.config.subject ++ fc.config.condition ++ fc.config.threshold
  match fc.config.timeframe, pyTruthy fc.config.timeframe with
  | some t, true => base ++ " for " ++ t
  | _, _ => base

/-- The `testcase` subelement built for one criterion, with an `error`
child exactly when the criterion is both triggered and set to fail. -/
def criterion_element (fc : FailCriterion) : Etree :=
  .el "testcase" [("classname", criterion_classname fc), ("name", "")]
    (if fc.is_triggered && fc.fail then
      [.el "error" [("type", "pass/fail criteria triggered"), ("message", "")] []]
     else [])

/-- Model of `JUnitXMLReporter.__process_pass_fail`: flattens the criteria,
counts the triggered-and-fail ones, and builds the root `testsuite`
(kwargs order: name, tests, failures, skip) with one `testcase` child
per criterion. -/
def process_pass_fail (pass_fail_objects : List PassFailStatus) : Etree :=
  let fail_criterias := gather_criterias pass_fail_objects
  let failures := fail_criterias.filter (fun x => x.is_triggered && x.fail)
  let total_failed := toString failures.length
  let tests_count := toString fail_criterias.length
  .el "testsuite"
    [("name", "taurus_junitxml_pass_fail"), ("tests", tests_count),
     ("failures", total_failed), ("skip", "0")]
    (fail_criterias.map criterion_element)

/-! ## post_process dispatch -/

/-- The attribute names defined on `JUnitXMLReporter` instances by the
class body (double-underscore names mangled to
`_JUnitXMLReporter__...`).  The `__save_report` method at lines 291–311
of the source is commented out, so `_JUnitXMLReporter__save_report` is
NOT among them. -/
def junitXMLReporter_methods : List String :=
  ["prepare", "aggregated_second", "post_process", "process_sample_labels",
   "write_summary_report", "count_errors", "write_errors",
   "_JUnitXMLReporter__convert_label_name", "save_report",
   "_JUnitXMLReporter__process_pass_fail"]

/-- What `post_process` leaves at the final report path. -/
inductive ReportOutcome where
  | noReport
  | reportSaved (path : String)
  deriving Repr, DecidableEq

/-- Model of `JUnitXMLReporter.post_process`, with the file-system effects
abstracted to the outcome at the final path: no stored datapoint means
no report; `"sample-labels"` writes the document to a temporary file and
`os.rename`s it to the final path; `"pass-fail"` builds the tree with
`__process_pass_fail` and then evaluates `self.__save_report(...)`,
i.e. looks up the (mangled) attribute `_JUnitXMLReporter__save_report`
— raising `AttributeError` when it is not defined; any other data-source
string falls through both branches and does nothing. -/
def post_process (data_source : String) (last_second : Option (List (String × KPISet)))
    (reporters : List PassFailStatus) (report_file_path : String) :
    Except PyError ReportOutcome :=
  match last_second with
  | none => .ok .noReport
  | some _ =>
      if data_source = "sample-labels" then
        .ok (.reportSaved report_file_path)
      else if data_source = "pass-fail" then
        let _rootElement := process_pass_fail reporters
        if "_JUnitXMLReporter__save_report" ∈ junitXMLReporter_methods then
          .ok (.reportSaved report_file_path)
        else
          .error (.attributeError "_JUnitXMLReporter__save_report")
      else .ok .noReport

/-! ## Spec-side definitions

These definitions follow the specification's words, to be compared with
the source-side definitions above by the refinement theorems. -/

/-- Spec-side dot-to-underscore rule, written as a direct recursion (the
source side maps `str.replace(".", "_")` over the characters). -/
def dotsToUnderscores : List Char → List Char
  | [] => []
  | c :: rest => (if c = '.' then '_' else c) :: dotsToUnderscores rest

/-- Spec-side class name: scheme + "." + host-with-dots-underscored
(the host read as the parsed network-location component). -/
def specClassName (url : String) : String :=
  let p := pyUrlparse url
  p.scheme ++ "." ++ String.mk (dotsToUnderscores p.netloc.data)

/-- Spec-side resource name: the four remaining URL components (path,
params, query, fragment), each with dots replaced by underscores,
joined with ".". -/
def specResourceName (url : String) : String :=
  let p := pyUrlparse url
  String.mk (dotsToUnderscores p.path.data) ++ "." ++
  String.mk (dotsToUnderscores p.params.data) ++ "." ++
  String.mk (dotsToUnderscores p.query.data) ++ "." ++
  String.mk (dotsToUnderscores p.fragment.data)

/-- The URL lines of one entry's `urls` mapping, in its given order. -/
def url_lines (urls : List (String × Nat)) : List String :=
  urls.map (fun p => url_err_template p.1 p.2)

/-- Spec-side description of the URL writes of one entry: with `done`
the URL lines already accumulated from earlier entries, the k-th write
is the concatenation of ALL URL lines so far (`done` plus this entry's
first k+1 lines) — the whole growing string, not just the new line. -/
def accum_writes (done ls : List String) : List String :=
  (List.range ls.length).map (fun k => String.join (done ++ ls.take (k + 1)))

/-- Spec-side description of all writes of `write_errors`: per entry,
its "Error code: …" line followed by its URL writes per `accum_writes`,
with the accumulated URL lines carried across entries and never reset. -/
def spec_error_writes : List ErrorEntry → List String → List String
  | [], _ => []
  | e :: rest, done =>
      err_template e ::
        (accum_writes done (url_lines e.urls) ++
         spec_error_writes rest (done ++ url_lines e.urls))

/-- Spec-side errors count: the sum of all per-URL failure counts over
all entries' `urls` mappings. -/
def urlFailureSum (errors : List ErrorEntry) : Nat :=
  (List.flatten (errors.map (fun e => e.urls.map Prod.snd))).sum

/-! ## Writer call sequences (for the stack invariant) -/

/-- One writer call: `add_element(name, attrs, close=False)` (leave the
element open) or `close_element()`. -/
inductive WOp where
  | openEl (name : String) (attrs : List (String × String))
  | closeTop
  deriving Repr, DecidableEq

/-- Apply one writer call to the state. -/
def applyOp (st : WState) : WOp → WState
  | .openEl name attrs => add_element name "" false attrs st
  | .closeTop => close_element st

/-- Run a sequence of writer calls. -/
def runOps : List WOp → WState → WState
  | [], st => st
  | op :: rest, st => runOps rest (applyOp st op)

/-- A write is a close tag iff it starts with `"</"`. -/
def isCloseWrite (s : String) : Bool :=
  match s.data with
  | '<' :: '/' :: _ => true
  | _ => false

/-- A write is an open tag iff it starts with `"<"` followed by neither
`'/'` (a close tag) nor `'?'` (the prolog). -/
def isOpenWrite (s : String) : Bool :=
  match s.data with
  | '<' :: c :: _ => !(c = '/') && !(c = '?')
  | _ => false

/-- The close-tag writes of an output trace, in emission order. -/
def closeWrites (out : List String) : List String :=
  out.filter isCloseWrite

/-- The open-tag writes of an output trace, in emission order, each
rendered as the close tag that would match it (an open write is `"<"`
followed by the element name). -/
def openWritesAsCloseTags (out : List String) : List String :=
  (out.filter isOpenWrite).map (fun s => "</" ++ String.mk (s.data.drop 1) ++ ">\n")

/-! ## Helper lemmas -/

lemma join_concat (xs : List String) (y : String) :
    String.join (xs ++ [y]) = String.join xs ++ y := by
  simp [String.join, List.foldl_append]

lemma accum_writes_cons (done : List String) (l : String) (ls : List String) :
    accum_writes done (l :: ls) =
      String.join (done ++ [l]) :: accum_writes (done ++ [l]) ls := by
  simp [accum_writes, List.range_succ_eq_map, List.map_map, Function.comp]

lemma url_loop_spec (urls : List (String × Nat)) :
    ∀ (done : List String) (st : WState),
      url_loop (String.join done) urls st =
        ({ st with out := st.out ++ accum_writes done (url_lines urls) },
         String.join (done ++ url_lines urls)) := by
  induction urls with
  | nil =>
      intro done st
      simp [url_loop, accum_writes, url_lines]
  | cons p rest ih =>
      intro done st
      obtain ⟨u, c⟩ := p
      have hacc : String.join done ++ url_err_template u c =
          String.join (done ++ [url_err_template u c]) := (join_concat _ _).symm
      simp only [url_loop, hacc]
      rw [ih (done ++ [url_err_template u c])]
      simp [raw_write, url_lines, accum_writes_cons, List.append_assoc]

lemma write_errors_go_spec (es : List ErrorEntry) :
    ∀ (done : List String) (st : WState),
      write_errors_go (String.join done) es st =
        { st with out := st.out ++ spec_error_writes es done } := by
  induction es with
  | nil =>
      intro done st
      simp [write_errors_go, spec_error_writes]
  | cons e rest ih =>
      intro done st
      simp only [write_errors_go, spec_error_writes]
      rw [url_loop_spec e.urls done]
      rw [ih (done ++ url_lines e.urls)]
      simp [raw_write, List.append_assoc]

lemma write_errors_spec (st : WState) (summary_kpi_set : KPISet) :
    write_errors st summary_kpi_set =
      { st with out := st.out ++ spec_error_writes summary_kpi_set.errors [] } := by
  have h : ("" : String) = String.join [] := rfl
  rw [write_errors, h, write_errors_go_spec]

lemma foldl_add_snd (urls : List (String × Nat)) :
    ∀ a : Nat, urls.foldl (fun acc p => acc + p.2) a = a + (urls.map Prod.snd).sum := by
  induction urls with
  | nil => intro a; simp
  | cons p rest ih => intro a; simp [ih, Nat.add_assoc]

lemma count_errors_go (es : List ErrorEntry) :
    ∀ n : Nat,
      es.foldl (fun err_counter e => e.urls.foldl (fun acc p => acc + p.2) err_counter) n =
        n + urlFailureSum es := by
  induction es with
  | nil => intro n; simp [urlFailureSum]
  | cons e rest ih =>
      intro n
      have hsum : urlFailureSum (e :: rest) =
          (e.urls.map Prod.snd).sum + urlFailureSum rest := by
        simp [urlFailureSum]
      rw [List.foldl_cons, foldl_add_snd, ih, hsum, Nat.add_assoc]

lemma count_errors_eq (summary_kpi_set : KPISet) :
    count_errors summary_kpi_set = urlFailureSum summary_kpi_set.errors := by
  rw [count_errors, count_errors_go]
  simp

lemma close_element_push (out es : List String) (e : String) :
    close_element { out := out, endings := es ++ [e] } =
      { out := out ++ [e], endings := es } := by
  simp [close_element, List.getLast?_concat, List.dropLast_concat]

lemma close_element_twice (out es : List String) (a b c : String) :
    close_element (close_element { out := out, endings := es ++ [a, b, c] }) =
      { out := out ++ [c, b], endings := es ++ [a] } := by
  have h1 : es ++ [a, b, c] = (es ++ [a, b]) ++ [c] := by simp
  have h2 : es ++ [a, b] = (es ++ [a]) ++ [b] := by simp
  rw [h1, close_element_push, h2, close_element_push]
  simp

lemma runOps_append (a b : List WOp) :
    ∀ st, runOps (a ++ b) st = runOps b (runOps a st) := by
  induction a with
  | nil => intro st; rfl
  | cons op rest ih => intro st; simp [runOps, ih]

lemma open_phase (names : List String) :
    ∀ st : WState,
      runOps (names.map (fun n => WOp.openEl n [])) st =
        { out := st.out ++ (names.map (fun n => ["<" ++ n, ">\n"])).flatten,
          endings := st.endings ++ names.map (fun n => "</" ++ n ++ ">\n") } := by
  induction names with
  | nil => intro st; simp [runOps]
  | cons n rest ih =>
      intro st
      simp [runOps, applyOp, add_element, ih, List.append_assoc]

lemma close_phase (es : List String) :
    ∀ out : List String,
      runOps (List.replicate es.length WOp.closeTop) { out := out, endings := es } =
        { out := out ++ es.reverse, endings := [] } := by
  induction es using List.reverseRecOn with
  | nil => intro out; simp [runOps]
  | append_singleton l e ih =>
      intro out
      have hlen : (l ++ [e]).length = l.length + 1 := by simp
      rw [hlen, List.replicate_succ]
      have hstep : applyOp { out := out, endings := l ++ [e] } WOp.closeTop =
          { out := out ++ [e], endings := l } := by
        simp [applyOp, close_element_push]
      simp only [runOps, hstep]
      rw [ih (out ++ [e])]
      simp

lemma dotsToUnderscores_eq_map (cs : List Char) :
    dotsToUnderscores cs = cs.map (fun c => if c = '.' then '_' else c) := by
  induction cs with
  | nil => rfl
  | cons c rest ih => simp [dotsToUnderscores, ih]

lemma underscoreDots_eq (s : String) :
    underscoreDots s = String.mk (dotsToUnderscores s.data) := by
  rw [underscoreDots, dotsToUnderscores_eq_map]

lemma intercalate_four (a b c d : String) :
    String.intercalate "." [a, b, c, d] = a ++ "." ++ b ++ "." ++ c ++ "." ++ d := rfl

end Reporting

open Reporting

/-! ## Claim theorems -/

/-- C1: the claim says that in pass/fail mode `post_process` persists the
built document to the final report path.  The code instead calls
`self.__save_report`, whose definition (lines 291–311) is commented out,
so for every run with a stored datapoint the pass/fail branch raises
`AttributeError` for the mangled name `_JUnitXMLReporter__save_report`
and no report file appears at the final path. -/
theorem c1_pass_fail_save_raises_attribute_error
    (data : List (String × KPISet)) (reporters : List PassFailStatus) (path : String) :
    post_process "pass-fail" (some data) reporters path =
      .error (.attributeError "_JUnitXMLReporter__save_report") := rfl

/-- C2: the claim says the failure-percentage computation returns 0 (or a
sentinel) and never raises when `sampleCount = 0`.  The code computes
`100 * failures / float(sample_count)` with no guard, so a summary record
with `sampleCount = 0` raises `ZeroDivisionError`. -/
theorem c2_zero_sample_count_raises :
    report_samples_count ⟨0, 0, 0, []⟩ = .error .zeroDivisionError := rfl

/-- C3 (counterexample): on the freshly initialized writer — whose
open-element stack is empty — `close_element` silently succeeds: the
state is returned unchanged and nothing beyond the prolog has been
written, contradicting the claim that it fails with a `WriterStateError`. -/
theorem c3_counterexample_empty_stack_silent :
    close_element initWriter = initWriter ∧
    (close_element initWriter).out = ["<?xml version='1.0' encoding='UTF-8'?>\n"] :=
  ⟨rfl, rfl⟩

/-- C3 (amended): for every writer state whose open-element stack is
empty, `close_element` is a silent no-op — it writes nothing and leaves
the state unchanged; no error of any kind is raised. -/
theorem c3_close_element_empty_stack_noop (st : WState) (h : st.endings = []) :
    close_element st = st := by
  simp [close_element, h]

/-- C3 witness: the amended no-op behaviour at the initial writer state. -/
theorem c3_witness : close_element initWriter = initWriter :=
  c3_close_element_empty_stack_noop initWriter rfl

/-- C4: label normalization is pure and satisfies: with a non-empty
scheme, the class name is the scheme, a dot, and the network location
with dots replaced by underscores, and the resource name joins the
dot-underscored path, params, query and fragment with "."; with no
scheme both outputs are the unchanged label; and on
"http://a.b.com/p/q?x=1#f" the class name is "http.a_b_com". -/
theorem c4_label_normalization :
    (∀ url, (pyUrlparse url).scheme ≠ "" →
        convert_label_name url = (specClassName url, specResourceName url)) ∧
    (∀ url, (pyUrlparse url).scheme = "" → convert_label_name url = (url, url)) ∧
    convert_label_name "http://a.b.com/p/q?x=1#f" = ("http.a_b_com", "/p/q..x=1.f") := by
  refine ⟨?_, ?_, by decide⟩
  · intro url h
    simp [convert_label_name, specClassName, specResourceName, h,
          underscoreDots_eq, intercalate_four]
  · intro url h
    simp [convert_label_name, h]

/-- C4 witness: the scheme'd branch of the normalization at a concrete URL. -/
theorem c4_witness :
    convert_label_name "https://x.y/z" =
      (specClassName "https://x.y/z", specResourceName "https://x.y/z") :=
  c4_label_normalization.1 "https://x.y/z" (by decide)

/-- C5 (counterexample): for the balanced interleaved sequence
open "a"; closeTop; open "b"; closeTop — each open matched by exactly one
later closeTop, ending with an empty stack — the emitted close tags come
in the SAME order as the emitted open tags, not the reverse, so the
claim's universally quantified reverse-order property is false. -/
theorem c5_counterexample_interleaved :
    (runOps [WOp.openEl "a" [], WOp.closeTop, WOp.openEl "b" [], WOp.closeTop]
        initWriter).endings = [] ∧
    closeWrites (runOps [WOp.openEl "a" [], WOp.closeTop, WOp.openEl "b" [], WOp.closeTop]
        initWriter).out ≠
      (openWritesAsCloseTags
        (runOps [WOp.openEl "a" [], WOp.closeTop, WOp.openEl "b" [], WOp.closeTop]
          initWriter).out).reverse := by
  decide

/-- C5 (amended): for every sequence of open(leaveOpen=true) calls
followed by an equal number of closeTop calls, the emitted close tags
are the exact reverse of the emitted open tags and the final
open-element stack is empty. -/
theorem c5_stack_lifo_nested (names : List String) :
    runOps (names.map (fun n => WOp.openEl n []) ++
            List.replicate names.length WOp.closeTop) initWriter =
      { out := initWriter.out ++ (names.map (fun n => ["<" ++ n, ">\n"])).flatten ++
          (names.map (fun n => "</" ++ n ++ ">\n")).reverse,
        endings := [] } := by
  rw [runOps_append, open_phase]
  have hlen : names.length = (names.map (fun n => "</" ++ n ++ ">\n")).length := by simp
  rw [hlen]
  have := close_phase (names.map (fun n => "</" ++ n ++ ">\n"))
      (initWriter.out ++ (names.map (fun n => ["<" ++ n, ">\n"])).flatten)
  simpa [initWriter] using this

/-- C6: every raw write of `write_errors` is as the spec describes the
quirk: per error entry the "Error code: …" line, then at each URL
iteration the ENTIRE concatenation of all URL lines produced so far
(across all entries processed so far, the accumulator never reset) is
written again, not just the new line. -/
theorem c6_url_accumulator_grows (st : WState) (summary_kpi_set : KPISet) :
    write_errors st summary_kpi_set =
      { st with out := st.out ++ spec_error_writes summary_kpi_set.errors [] } :=
  write_errors_spec st summary_kpi_set

/-- C7: the full output of `write_summary_report`: after the `testsuite`,
`testcase` and `error` open tags, the error body BEGINS with the line
"Success: S, Sample count: N, Failures: F, Errors: E" where S, N, F are
the success, sample and failure counts of the summary record and E is
the sum of all per-URL failure counts over all its error entries' `urls`
mappings (the entries' `cnt` fields do not contribute), followed by the
error descriptions and the two close tags. -/
theorem c7_summary_error_body (st : WState) (summary_kpiset : KPISet) :
    write_summary_report st summary_kpiset =
      { out := st.out ++
          ["<testsuite", " failures='" ++ toString summary_kpiset.failures ++ "'",
           " name='sample_labels'", " skip='0'",
           " tests='" ++ toString summary_kpiset.sampleCount ++ "'", ">\n",
           "<testcase", " classname='bzt'", " name='summary_report'", ">\n",
           "<error", " message='error statistics:'", " type='http error'", ">\n",
           "Success: " ++ toString summary_kpiset.succ ++ ", Sample count: " ++
             toString summary_kpiset.sampleCount ++ ", Failures: " ++
             toString summary_kpiset.failures ++ ", Errors: " ++
             toString (urlFailureSum summary_kpiset.errors) ++ "\n"] ++
          spec_error_writes summary_kpiset.errors [] ++
          ["</error>\n", "</testcase>\n"],
        endings := st.endings ++ ["</testsuite>\n"] } := by
  simp only [write_summary_report]
  rw [write_errors_spec]
  simp [add_testsuite, add_testcase, add_error, add_element, raw_write, count_errors_eq]
  rw [close_element_twice]
  simp [List.append_assoc]

/-- C8: the pass/fail root `testsuite` reports tests = the total number
of flattened criteria, failures = the number of criteria that are both
triggered and set to fail, and skip = 0. -/
theorem c8_pass_fail_root_attrs (pass_fail_objects : List PassFailStatus) :
    (process_pass_fail pass_fail_objects).tag = "testsuite" ∧
    (process_pass_fail pass_fail_objects).attrs =
      [("name", "taurus_junitxml_pass_fail"),
       ("tests", toString (gather_criterias pass_fail_objects).length),
       ("failures", toString ((gather_criterias pass_fail_objects).countP
          (fun fc => fc.is_triggered && fc.fail))),
       ("skip", "0")] := by
  refine ⟨rfl, ?_⟩
  simp [process_pass_fail, Etree.attrs, List.countP_eq_length_filter]

/-- C9: normalization is idempotent on labels with no scheme: such a
label passes through unchanged, and normalizing either component of the
output again gives the same result. -/
theorem c9_normalize_idempotent_non_url (x : String)
    (h : (pyUrlparse x).scheme = "") :
    convert_label_name x = (x, x) ∧
    convert_label_name (convert_label_name x).1 = convert_label_name x ∧
    convert_label_name (convert_label_name x).2 = convert_label_name x := by
  have hx : convert_label_name x = (x, x) := by simp [convert_label_name, h]
  exact ⟨hx, by simp [hx], by simp [hx]⟩

/-- C9 witness: idempotence at the schemeless label "my label". -/
theorem c9_witness :
    convert_label_name "my label" = ("my label", "my label") ∧
    convert_label_name (convert_label_name "my label").1 = convert_label_name "my label" ∧
    convert_label_name (convert_label_name "my label").2 = convert_label_name "my label" :=
  c9_normalize_idempotent_non_url "my label" (by decide)

/-- C10: with a non-empty scheme, the resource name joins the four
components with "." even when they are empty (no component is skipped),
and in particular "http://host" — no path, params, query or fragment —
yields resource name "..." (three dots). -/
theorem c10_empty_components_not_skipped :
    (∀ url, (pyUrlparse url).scheme ≠ "" →
        (convert_label_name url).2 =
          underscoreDots (pyUrlparse url).path ++ "." ++
          underscoreDots (pyUrlparse url).params ++ "." ++
          underscoreDots (pyUrlparse url).query ++ "." ++
          underscoreDots (pyUrlparse url).fragment) ∧
    convert_label_name "http://host" = ("http.host", "...") := by
  refine ⟨?_, by decide⟩
  intro url h
  simp [convert_label_name, h, intercalate_four]

/-- C10 witness: the four-component join at a concrete URL with empty
params, query and fragment. -/
theorem c10_witness :
    (convert_label_name "http://x.y/a.b").2 =
      underscoreDots (pyUrlparse "http://x.y/a.b").path ++ "." ++
      underscoreDots (pyUrlparse "http://x.y/a.b").params ++ "." ++
      underscoreDots (pyUrlparse "http://x.y/a.b").query ++ "." ++
      underscoreDots (pyUrlparse "http://x.y/a.b").fragment :=
  c10_empty_components_not_skipped.1 "http://x.y/a.b" (by decide)

